import Mathlib

/-!
Verification of the account-research UI core (wizard validation, step
navigation, task polling/rendering, artifact download) against its
natural-language specification.  All definitions are shallow embeddings of
the TypeScript source under `src/account-research-ui/src` (and the
`ResultPage` component); JavaScript truthiness of strings, numbers and
arrays is made explicit where the source relies on it.
-/

namespace AccountResearch

/-- Task lifecycle status, from `api/client.ts` (`Task.status`). -/
inductive Status where
  | pending
  | processing
  | completed
  | failed
deriving DecidableEq

/-- Validated wizard form values, from `WizardContext.tsx` (`FormValues`,
inferred from `wizardFormSchema`).  `GenerationRequest` in `api/client.ts`
extends this type with nothing. -/
structure FormValues where
  targetCompany : String
  userCompany : String
  language : String
  sections : List String
deriving DecidableEq

/-- A task snapshot, from `api/client.ts` (`interface Task`).  `progress`
and `error` are optional fields there. -/
structure Task where
  id : String
  status : Status
  progress : Option Int
  created_at : String
  updated_at : String
  request : FormValues
  error : Option String
deriving DecidableEq

/-! ## Wizard validation (`WizardContext.tsx`, `wizardFormSchema`) -/

/-- The ten languages of the `z.enum` in `wizardFormSchema`
(`WizardContext.tsx` line 10). -/
def languages : List String :=
  ["English", "Japanese", "Spanish", "French", "German",
   "Chinese", "Portuguese", "Italian", "Russian", "Korean"]

/-- A draft of the form as held by react-hook-form before validation:
every field may still be absent. -/
structure WizardDraft where
  targetCompany : Option String
  userCompany : Option String
  language : Option String
  sections : Option (List String)
deriving DecidableEq

/-- `z.string().min(2, "Target company name is required")`: an absent
value fails, a present one needs length at least 2. -/
def parseTargetCompany : Option String → Except String String
  | none => Except.error "Required"
  | some s => if 2 ≤ s.length then Except.ok s
              else Except.error "Target company name is required"

/-- `z.string().min(2, "Your company name is required")`. -/
def parseUserCompany : Option String → Except String String
  | none => Except.error "Required"
  | some s => if 2 ≤ s.length then Except.ok s
              else Except.error "Your company name is required"

/-- `z.enum([...10 languages...])`: the value must be one of the ten
enumerated strings. -/
def parseLanguage : Option String → Except String String
  | none => Except.error "Required"
  | some s => if s ∈ languages then Except.ok s
              else Except.error "Invalid enum value"

/-- `z.array(z.string()).default([])`: an absent value becomes the empty
list, a present list of strings is accepted as is. -/
def parseSections : Option (List String) → Except String (List String)
  | none => Except.ok []
  | some l => Except.ok l

/-- Full-schema validation of a draft, as run by `zodResolver
(wizardFormSchema)`: all four field parsers must succeed. -/
def parseWizard (d : WizardDraft) : Except String FormValues :=
  match parseTargetCompany d.targetCompany with
  | Except.error e => Except.error e
  | Except.ok t =>
    match parseUserCompany d.userCompany with
    | Except.error e => Except.error e
    | Except.ok u =>
      match parseLanguage d.language with
      | Except.error e => Except.error e
      | Except.ok lang =>
        match parseSections d.sections with
        | Except.error e => Except.error e
        | Except.ok secs => Except.ok ⟨t, u, lang, secs⟩

/-- `formState.isValid` under `resolver: zodResolver(wizardFormSchema)`
with `mode: "onChange"`: true exactly when the whole schema parses. -/
def formIsValid (d : WizardDraft) : Bool :=
  match parseWizard d with
  | Except.ok _ => true
  | Except.error _ => false

/-- `methods.handleSubmit(handler)` invokes `handler` exactly when the
resolver validates the draft (`WizardProvider.onSubmit`,
`WizardContext.tsx` lines 54-62). -/
def submitInvokesHandler (d : WizardDraft) : Bool :=
  formIsValid d

/-! ## Step navigation (`WizardLayout.tsx`) -/

/-- The ordered step list (`WizardLayout.tsx` lines 12-16). -/
def stepsList : List String :=
  ["Target company", "About you", "Language & options"]

/-- `handleNext` (`WizardLayout.tsx` lines 24-28): advance only while
`currentStep < steps.length - 1`. -/
def handleNext (currentStep : Int) : Int :=
  if currentStep < (stepsList.length : Int) - 1 then currentStep + 1
  else currentStep

/-- `handleBack` (`WizardLayout.tsx` lines 30-34): retreat only while
`currentStep > 0`. -/
def handleBack (currentStep : Int) : Int :=
  if currentStep > 0 then currentStep - 1 else currentStep

/-- The `Next` button `disabled={!formState.isValid}` guard
(`WizardLayout.tsx` line 74). -/
def nextDisabled (isValid : Bool) : Bool := !isValid

/-- The `Back` button `disabled={currentStep === 0}` guard
(`WizardLayout.tsx` line 63). -/
def backDisabled (currentStep : Int) : Bool := decide (currentStep = 0)

/-- A click on one of the two navigation buttons. -/
inductive NavEvent where
  | next
  | back
deriving DecidableEq

/-- One button click applied to the step cursor; disabled buttons cannot
fire, but even an enabled `Next`/`Back` re-checks the bound inside the
handler. -/
def navStep (c : Int) : NavEvent → Int
  | NavEvent.next => handleNext c
  | NavEvent.back => handleBack c

/-- The cursor after a sequence of clicks, starting from
`useState(0)` (`WizardLayout.tsx` line 94). -/
def runNav (es : List NavEvent) : Int :=
  es.foldl navStep 0

/-! ## Task submission (`WizardLayout.tsx` `handleSubmit`, `api/client.ts`
`createTask`) -/

/-- `api.createTask(payload)` posts the payload to `/generate` unchanged
(`api/client.ts` lines 31-34); the body sent over the wire is the
validated form values as they are. -/
def createTaskPayload (v : FormValues) : FormValues := v

/-- The request body that reaches `POST /generate` for a draft: the
resolver-validated values, forwarded verbatim by `WizardForm.handleSubmit`
via `api.createTask`; `none` when validation blocks the submit. -/
def submittedPayload (d : WizardDraft) : Option FormValues :=
  match parseWizard d with
  | Except.ok v => some (createTaskPayload v)
  | Except.error _ => none

/-- `defaultValues.sections || []` in `WizardProvider`
(`WizardContext.tsx` line 49): a JavaScript `||` on an array — `[]` is
truthy, so a present list (empty included) is kept and only an absent one
is replaced by `[]`. -/
def resolveDefaultSections : Option (List String) → List String
  | none => []
  | some l => l

/-! ## Polling page (`ProgressPage.tsx`) -/

/-- The profile-gate state of `ProgressPage`: `useState(true)` for the
dialog, `useState(false)` for `hasUserInfo` (lines 55-56). -/
structure ProfileState where
  userInfoDialogOpen : Bool
  hasUserInfo : Bool
deriving DecidableEq

/-- Initial profile-gate state on mount. -/
def initialProfileState : ProfileState :=
  { userInfoDialogOpen := true, hasUserInfo := false }

/-- Events that can touch the profile gate: the mount effect reading
`localStorage.getItem("userInfo")` (lines 59-65; `getItem` yields a
string or null), and the dialog `onSubmit` — which react-hook-form
invokes only with data valid under `userInfoSchema` (lines 77-81). -/
inductive ProfileEvent where
  | mountStorageCheck (stored : Option String)
  | submitUserInfo (name email designation : String)
deriving DecidableEq

/-- One profile event applied to the gate state.  The storage check sets
the flags only when the stored string is truthy (non-empty); a submit
stores the profile and sets both flags. -/
def profileStep (s : ProfileState) : ProfileEvent → ProfileState
  | ProfileEvent.mountStorageCheck stored =>
    match stored with
    | some v =>
      if v = "" then s
      else { s with hasUserInfo := true, userInfoDialogOpen := false }
    | none => s
  | ProfileEvent.submitUserInfo _ _ _ =>
    { s with hasUserInfo := true, userInfoDialogOpen := false }

/-- Whether an event captures a requester profile (truthy stored value or
a successful dialog submit). -/
def capturesProfile : ProfileEvent → Bool
  | ProfileEvent.mountStorageCheck stored =>
    match stored with
    | some v => decide (v ≠ "")
    | none => false
  | ProfileEvent.submitUserInfo _ _ _ => true

/-- The profile-gate state after a sequence of events from mount. -/
def runProfile (es : List ProfileEvent) : ProfileState :=
  es.foldl profileStep initialProfileState

/-- The `useQuery` `enabled` option, `!!id && hasUserInfo`
(`ProgressPage.tsx` line 87): the only inputs are the presence of a route
id and the profile flag. -/
def pollingEnabled (idPresent hasUserInfo : Bool) : Bool :=
  idPresent && hasUserInfo

/-- The view state `ProgressPage` consults when rendering its main panel
(lines 179-215): whether a query error has been latched and the latest
task snapshot, plus the `enabled` inputs. -/
structure PollPageState where
  idPresent : Bool
  hasUserInfo : Bool
  errorLatched : Bool
  task : Option Task
deriving DecidableEq

/-- The query `enabled` flag for a page state — line 87 verbatim: it
reads `idPresent` and `hasUserInfo` and nothing else. -/
def queryEnabled (s : PollPageState) : Bool :=
  pollingEnabled s.idPresent s.hasUserInfo

/-- Default message of the failure panel (`ProgressPage.tsx` line 185). -/
def fallbackErrorMessage : String :=
  "An error occurred while processing your request. Please try again."

/-- `task?.error || fallback` (line 185): JavaScript `||` falls through
on an absent or empty `error` string. -/
def displayedError : Option Task → String
  | some t =>
    match t.error with
    | some e => if e = "" then fallbackErrorMessage else e
    | none => fallbackErrorMessage
  | none => fallbackErrorMessage

/-- `task?.status === "failed"` on an optional snapshot. -/
def statusIsFailed : Option Task → Bool
  | some t => decide (t.status = Status.failed)
  | none => false

/-- The main panel: error block or progress block. -/
inductive ProgressView where
  | errorView (message : String)
  | progressView (progress : Option Int)
deriving DecidableEq

/-- The conditional at `ProgressPage.tsx` line 179:
`error || task?.status === "failed"` renders the failure panel with the
`displayedError` message, anything else renders the progress panel. -/
def renderMain (s : PollPageState) : ProgressView :=
  if s.errorLatched || statusIsFailed s.task then
    ProgressView.errorView (displayedError s.task)
  else
    ProgressView.progressView (Option.bind s.task Task.progress)

/-! ## Completion effect (`ProgressPage.tsx` lines 93-99) -/

/-- Number of `navigate("/task/id/result")` calls issued by the
completion effect over a sequence of polled snapshots.  The effect has
dependency array `[task, id, navigate]`, so it re-runs exactly when the
snapshot object changes; the react-query library, whose structural sharing keeps the same
object while the data is deep-equal, so a change is value inequality with
the previously observed snapshot (`prev`, initially absent).  The effect
body navigates whenever the snapshot status is `completed` — there is
no flag or other guard in the source. -/
def navCountFrom : Option Task → List Task → Nat
  | _, [] => 0
  | prev, t :: rest =>
    (if prev ≠ some t ∧ t.status = Status.completed then 1 else 0)
      + navCountFrom (some t) rest

/-- Navigation count over the snapshots delivered before the component
unmounts, starting with no previously observed snapshot. -/
def navigationFires (l : List Task) : Nat :=
  navCountFrom none l

/-! ## Derived sub-stages (`ProgressPage.tsx` lines 102-107) -/

/-- Status string of the `Running analysis` log entry:
`task?.progress && task.progress > 30 ? "processing" else "pending"`.  A
missing or zero progress is falsy, so the `> 30` comparison is reached
only for a truthy value. -/
def analysisLogStatus : Option Int → String
  | none => "pending"
  | some p => if p ≠ 0 ∧ p > 30 then "processing" else "pending"

/-- Status string of the `Generating report` log entry, threshold 70. -/
def reportLogStatus : Option Int → String
  | none => "pending"
  | some p => if p ≠ 0 ∧ p > 70 then "processing" else "pending"

/-- Status string of the `Gathering company data` log entry:
`task?.status === "pending"` choosing `"pending"` over `"processing"`. -/
def gatheringLogStatus : Option Status → String
  | some Status.pending => "pending"
  | _ => "processing"

/-- The `taskLogs` array (lines 102-107): label and status of the four
pseudo-stages for the latest snapshot. -/
def taskLogs (task : Option Task) : List (String × String) :=
  [("Initializing task", "completed"),
   ("Gathering company data", gatheringLogStatus (Option.map Task.status task)),
   ("Running analysis", analysisLogStatus (Option.bind task Task.progress)),
   ("Generating report", reportLogStatus (Option.bind task Task.progress))]

/-! ## Artifact download (`api/client.ts` `downloadPdf`, `ResultPage`) -/

/-- Error taxonomy of the spec Task Client contract. -/
inductive ApiError where
  | NetworkError
  | ValidationError
  | TransportError
  | NotReadyError
  | ServerError
deriving DecidableEq

/-- Modelled from the spec: the backend `GET /result/{id}/pdf` endpoint
(served by `app/api/main.py`, which is part of this repository but not
under `src/`; the client function `api.downloadPdf` is a plain GET with no
client-side check).  Per the spec, the download "is only valid once
status is completed; requesting earlier fails with `NotReadyError`; the
blob is the rendered report". -/
def downloadArtifact (t : Task) (pdfBytes : List Nat) : Except ApiError (List Nat) :=
  if t.status = Status.completed then Except.ok pdfBytes
  else Except.error ApiError.NotReadyError

/-- The `ResultPage` inline-load guard
(`if (id && task?.status === "completed") loadPdf()`): the client invokes
the download only for a completed snapshot. -/
def shouldLoadPdf (idPresent : Bool) (task : Option Task) : Bool :=
  idPresent &&
    (match task with
     | some t => decide (t.status = Status.completed)
     | none => false)

/-! ## Spec-side predicate for step-local validity (claim C7) -/

/-- Written from the spec wording, for comparison with the code: validity
of only "the fields relevant to the current step" — step 0 edits the
target company, step 1 the requester company, step 2 the language and
sections (sections are always valid). -/
def specStepFieldsValid (stepIdx : Int) (d : WizardDraft) : Prop :=
  if stepIdx = 0 then ∃ s, d.targetCompany = some s ∧ 2 ≤ s.length
  else if stepIdx = 1 then ∃ s, d.userCompany = some s ∧ 2 ≤ s.length
  else ∃ s, d.language = some s ∧ s ∈ languages

/-! ## Concrete sample values used by witnesses and counterexamples -/

/-- A validated request body. -/
def sampleRequest : FormValues := ⟨"Acme", "Globex", "English", []⟩

/-- A completed snapshot of task `t1`. -/
def snapA : Task :=
  ⟨"t1", Status.completed, some 100, "2024-01-01",
   "2024-01-01T00:00:00", sampleRequest, none⟩

/-- The next polled snapshot of the same task: still `completed`, but
with a later `updated_at`, so structural sharing yields a new object. -/
def snapB : Task := { snapA with updated_at := "2024-01-01T00:00:03" }

/-- A snapshot still being processed. -/
def snapProcessing : Task :=
  { snapA with status := Status.processing, progress := some 45 }

/-- A processing snapshot with progress 80, past both thresholds. -/
def task80 : Task :=
  { snapA with status := Status.processing, progress := some 80 }

/-- A failed snapshot whose `error` field is present but empty. -/
def taskFailedEmptyError : Task :=
  { snapA with status := Status.failed, error := some "" }

/-- A failed snapshot with a non-empty error message. -/
def taskFailedBoom : Task :=
  { snapA with status := Status.failed, error := some "boom" }

/-- A fully valid draft. -/
def validDraft : WizardDraft :=
  ⟨some "Acme", some "Globex", some "English", some []⟩

/-- A draft whose step-0 field is valid but whose step-1 field is still
absent. -/
def draftStep0 : WizardDraft :=
  ⟨some "Acme", none, some "English", some []⟩

/-- A page state with a latched query error, an id and a profile. -/
def errorLatchedState : PollPageState :=
  { idPresent := true, hasUserInfo := true, errorLatched := true,
    task := none }

/-- A healthy page state (id and profile present, no latched error)
observing a given snapshot. -/
def observingState (t : Task) : PollPageState :=
  { idPresent := true, hasUserInfo := true, errorLatched := false,
    task := some t }

/-! ## Helper lemmas -/

/-- An event that does not capture a profile leaves `hasUserInfo` false. -/
theorem profileStep_preserves (s : ProfileState) (e : ProfileEvent)
    (hs : s.hasUserInfo = false) (he : capturesProfile e = false) :
    (profileStep s e).hasUserInfo = false := by
  cases e with
  | mountStorageCheck stored =>
    cases stored with
    | none => simpa [profileStep] using hs
    | some v =>
      have hv : v = "" := by simpa [capturesProfile] using he
      simpa [profileStep, hv] using hs
  | submitUserInfo n m d => simp [capturesProfile] at he

/-- Folding capture-free events preserves an unset profile flag. -/
theorem foldl_profile_preserves (es : List ProfileEvent) :
    ∀ s : ProfileState, s.hasUserInfo = false →
      (∀ e ∈ es, capturesProfile e = false) →
      (es.foldl profileStep s).hasUserInfo = false := by
  induction es with
  | nil => intro s hs _; simpa using hs
  | cons e rest ih =>
    intro s hs h
    have he := h e (by simp)
    exact ih (profileStep s e) (profileStep_preserves s e hs he)
      (fun x hx => h x (by simp [hx]))

/-- A sequence of snapshots ending in a completed one fires the
completion effect at least once. -/
theorem navCountFrom_pos (pre : List Task) :
    ∀ (prev : Option Task) (t : Task), t.status = Status.completed →
      prev ≠ some t → 1 ≤ navCountFrom prev (pre ++ [t]) := by
  induction pre with
  | nil =>
    intro prev t hc hne
    simp [navCountFrom, hne, hc]
  | cons s rest ih =>
    intro prev t hc hne
    by_cases hst : s = t
    · subst hst
      simp only [List.cons_append, navCountFrom, List.append_eq]
      rw [if_pos ⟨hne, hc⟩]
      omega
    · have h1 : (some s : Option Task) ≠ some t := by simp [hst]
      have h2 := ih (some s) t hc h1
      simp only [List.cons_append, navCountFrom, List.append_eq]
      split <;> omega

/-- When no earlier snapshot is completed, the effect fires exactly once
at the final completed snapshot. -/
theorem navCountFrom_single (pre : List Task) :
    ∀ (prev : Option Task) (t : Task), t.status = Status.completed →
      prev ≠ some t → (∀ s ∈ pre, s.status ≠ Status.completed) →
      navCountFrom prev (pre ++ [t]) = 1 := by
  induction pre with
  | nil =>
    intro prev t hc hne _
    simp [navCountFrom, hne, hc]
  | cons s rest ih =>
    intro prev t hc hne hpre
    have hs : s.status ≠ Status.completed := hpre s (by simp)
    have hst : (some s : Option Task) ≠ some t := by
      intro h
      rw [Option.some.injEq] at h
      exact hs (by rw [h, hc])
    simp only [List.cons_append, navCountFrom, List.append_eq]
    rw [if_neg (fun hcon => hs hcon.2)]
    rw [ih (some s) t hc hst (fun x hx => hpre x (by simp [hx]))]

/-- The resolver validates a draft exactly when every field satisfies its
rule. -/
theorem formIsValid_iff (d : WizardDraft) :
    formIsValid d = true ↔
      ((∃ s, d.targetCompany = some s ∧ 2 ≤ s.length) ∧
       (∃ s, d.userCompany = some s ∧ 2 ≤ s.length) ∧
       (∃ s, d.language = some s ∧ s ∈ languages)) := by
  obtain ⟨tc, uc, lg, sec⟩ := d
  simp only [formIsValid, parseWizard]
  cases tc with
  | none => simp [parseTargetCompany]
  | some t =>
    simp only [parseTargetCompany]
    by_cases ht : 2 ≤ t.length
    · rw [if_pos ht]
      cases uc with
      | none => simp [parseUserCompany, ht]
      | some u =>
        simp only [parseUserCompany]
        by_cases hu : 2 ≤ u.length
        · rw [if_pos hu]
          cases lg with
          | none => simp [parseLanguage, ht, hu]
          | some l =>
            simp only [parseLanguage]
            by_cases hl : l ∈ languages
            · rw [if_pos hl]
              cases sec <;> simp [parseSections, ht, hu, hl]
            · rw [if_neg hl]
              simp [ht, hu, hl]
        · rw [if_neg hu]
          simp [ht, hu]
    · rw [if_neg ht]
      simp [ht]

/-- The `Running analysis` entry is active exactly above threshold 30. -/
theorem analysisLogStatus_iff (n : Int) :
    analysisLogStatus (some n) = "processing" ↔ n > 30 := by
  simp only [analysisLogStatus]
  split
  · rename_i h
    exact iff_of_true rfl h.2
  · rename_i h
    constructor
    · intro hcon; exact absurd hcon (by decide)
    · intro h30; exact absurd ⟨by omega, h30⟩ h

/-- The `Generating report` entry is active exactly above threshold 70. -/
theorem reportLogStatus_iff (n : Int) :
    reportLogStatus (some n) = "processing" ↔ n > 70 := by
  simp only [reportLogStatus]
  split
  · rename_i h
    exact iff_of_true rfl h.2
  · rename_i h
    constructor
    · intro hcon; exact absurd hcon (by decide)
    · intro h70; exact absurd ⟨by omega, h70⟩ h

/-- Any one navigation click keeps a cursor within the three-step range. -/
theorem navStep_bounds (c : Int) (e : NavEvent) (h0 : 0 ≤ c) (h2 : c ≤ 2) :
    0 ≤ navStep c e ∧ navStep c e ≤ 2 := by
  cases e <;>
    simp only [navStep, handleNext, handleBack, stepsList,
      List.length_cons, List.length_nil] <;>
    split <;> omega

/-- Cursor bounds are preserved along any click sequence. -/
theorem runNav_bounds_aux (es : List NavEvent) :
    ∀ c : Int, 0 ≤ c → c ≤ 2 →
      0 ≤ es.foldl navStep c ∧ es.foldl navStep c ≤ 2 := by
  induction es with
  | nil => intro c h0 h2; simpa using ⟨h0, h2⟩
  | cons e rest ih =>
    intro c h0 h2
    have h := navStep_bounds c e h0 h2
    simpa [List.foldl] using ih (navStep c e) h.1 h.2

/-- A successful full-schema parse carries the parsed sections. -/
theorem parseWizard_sections (d : WizardDraft) (v : FormValues)
    (hv : parseWizard d = Except.ok v) :
    parseSections d.sections = Except.ok v.sections := by
  unfold parseWizard at hv
  cases h1 : parseTargetCompany d.targetCompany with
  | error e => simp only [h1] at hv; exact Except.noConfusion hv
  | ok t =>
    simp only [h1] at hv
    cases h2 : parseUserCompany d.userCompany with
    | error e => simp only [h2] at hv; exact Except.noConfusion hv
    | ok u =>
      simp only [h2] at hv
      cases h3 : parseLanguage d.language with
      | error e => simp only [h3] at hv; exact Except.noConfusion hv
      | ok lang =>
        simp only [h3] at hv
        cases h4 : parseSections d.sections with
        | error e => simp only [h4] at hv; exact Except.noConfusion hv
        | ok secs =>
          simp only [h4, Except.ok.injEq] at hv
          subst hv
          rfl

/-! ## Claim C1 -/

/-- Claim C1 counterexample: two consecutive polled snapshots of the same
task id both report `completed` but differ in `updated_at`, so structural
sharing delivers two distinct objects, and the unguarded completion
effect calls `navigate` twice — not exactly once. -/
theorem C1_counterexample :
    snapA.status = Status.completed ∧ snapB.status = Status.completed ∧
    snapA.id = snapB.id ∧ navigationFires [snapA, snapB] = 2 := by
  refine ⟨rfl, rfl, rfl, ?_⟩
  decide

/-- Claim C1 (amended): over any polled sequence ending in a `completed`
snapshot, the navigate-to-result effect fires at least once, and exactly
once when no earlier delivered snapshot reports `completed`; duplicate
distinct `completed` snapshots are not guarded against. -/
theorem C1_navigation_fires (pre : List Task) (t : Task)
    (hc : t.status = Status.completed) :
    1 ≤ navigationFires (pre ++ [t]) ∧
    ((∀ s ∈ pre, s.status ≠ Status.completed) →
      navigationFires (pre ++ [t]) = 1) :=
  ⟨navCountFrom_pos pre none t hc (by simp),
   fun h => navCountFrom_single pre none t hc (by simp) h⟩

/-- Witness for C1: a single completed snapshot fires navigation exactly
once. -/
theorem C1_navigation_fires_witness :
    1 ≤ navigationFires ([] ++ [snapA]) ∧
    ((∀ s ∈ ([] : List Task), s.status ≠ Status.completed) →
      navigationFires ([] ++ [snapA]) = 1) :=
  C1_navigation_fires [] snapA rfl

/-! ## Claim C2 -/

/-- Claim C2 counterexample: with an error latched (and an id and profile
present) the failure panel renders, yet the query `enabled` flag is still
true — the source guard never consults the error, so polling is not
disabled. -/
theorem C2_counterexample :
    errorLatchedState.errorLatched = true ∧
    renderMain errorLatchedState
      = ProgressView.errorView fallbackErrorMessage ∧
    queryEnabled errorLatchedState = true :=
  ⟨rfl, rfl, rfl⟩

/-- Claim C2 (amended): once an error is latched the page stops rendering
progress and shows the error view, but the polling query is not disabled
by the error — `enabled` equals `idPresent && hasUserInfo` whatever the
error flag is. -/
theorem C2_error_latched (s : PollPageState) (h : s.errorLatched = true) :
    renderMain s = ProgressView.errorView (displayedError s.task) ∧
    queryEnabled s = queryEnabled { s with errorLatched := false } ∧
    queryEnabled s = pollingEnabled s.idPresent s.hasUserInfo := by
  refine ⟨?_, rfl, rfl⟩
  simp [renderMain, h]

/-- Witness for C2 at the concrete error-latched state. -/
theorem C2_error_latched_witness :
    renderMain errorLatchedState
      = ProgressView.errorView (displayedError errorLatchedState.task) ∧
    queryEnabled errorLatchedState
      = queryEnabled { errorLatchedState with errorLatched := false } ∧
    queryEnabled errorLatchedState
      = pollingEnabled errorLatchedState.idPresent errorLatchedState.hasUserInfo :=
  C2_error_latched errorLatchedState rfl

/-! ## Claim C3 -/

/-- Claim C3: for a task whose status is not `completed`, the artifact
download fails with `NotReadyError` and never succeeds; the client also
never triggers the inline load for such a snapshot. -/
theorem C3_not_ready (t : Task) (pdfBytes : List Nat)
    (h : t.status ≠ Status.completed) :
    downloadArtifact t pdfBytes = Except.error ApiError.NotReadyError ∧
    (∀ r, downloadArtifact t pdfBytes ≠ Except.ok r) ∧
    (∀ idPresent, shouldLoadPdf idPresent (some t) = false) := by
  have hd : downloadArtifact t pdfBytes
      = Except.error ApiError.NotReadyError := by
    simp [downloadArtifact, h]
  refine ⟨hd, ?_, ?_⟩
  · intro r hr
    rw [hd] at hr
    exact Except.noConfusion hr
  · intro idPresent
    simp [shouldLoadPdf, h]

/-- Witness for C3 at a processing snapshot. -/
theorem C3_not_ready_witness :
    downloadArtifact snapProcessing [] = Except.error ApiError.NotReadyError ∧
    (∀ r, downloadArtifact snapProcessing [] ≠ Except.ok r) ∧
    (∀ idPresent, shouldLoadPdf idPresent (some snapProcessing) = false) :=
  C3_not_ready snapProcessing [] (by decide)

/-! ## Claim C4 -/

/-- Claim C4 counterexample: at progress 80 (past the 70 threshold) the
`Running analysis` entry is still marked `processing` — the source has no
upper cutoff at 70, contradicting the claimed "and not yet > 70". -/
theorem C4_counterexample :
    task80.progress = some 80 ∧ ((80 : Int) > 70) ∧
    taskLogs (some task80) =
      [("Initializing task", "completed"),
       ("Gathering company data", "processing"),
       ("Running analysis", "processing"),
       ("Generating report", "processing")] := by
  refine ⟨rfl, by decide, ?_⟩
  rfl

/-- Claim C4 (amended): for a snapshot with a numeric progress value,
`Running analysis` is marked active iff progress > 30 (with no upper
bound), and `Generating report` iff progress > 70; past 70 both are
active. -/
theorem C4_substage_thresholds (t : Task) (n : Int)
    (h : t.progress = some n) :
    (analysisLogStatus t.progress = "processing" ↔ n > 30) ∧
    (reportLogStatus t.progress = "processing" ↔ n > 70) ∧
    ("Running analysis", analysisLogStatus t.progress) ∈ taskLogs (some t) ∧
    ("Generating report", reportLogStatus t.progress) ∈ taskLogs (some t) := by
  rw [h]
  refine ⟨analysisLogStatus_iff n, reportLogStatus_iff n, ?_, ?_⟩
  · simp [taskLogs, h]
  · simp [taskLogs, h]

/-- Witness for C4 at progress 80. -/
theorem C4_substage_thresholds_witness :
    (analysisLogStatus task80.progress = "processing" ↔ (80 : Int) > 30) ∧
    (reportLogStatus task80.progress = "processing" ↔ (80 : Int) > 70) ∧
    ("Running analysis", analysisLogStatus task80.progress)
      ∈ taskLogs (some task80) ∧
    ("Generating report", reportLogStatus task80.progress)
      ∈ taskLogs (some task80) :=
  C4_substage_thresholds task80 80 rfl

/-! ## Claim C5 -/

/-- Claim C5: submit invokes the handler iff every field satisfies its
rule — both company names have length at least 2 and the language is one
of the ten enumerated values — so any single invalid field blocks
submission; an absent sections field parses to the empty list, and the
enumeration has exactly ten values. -/
theorem C5_submit_iff (d : WizardDraft) :
    (submitInvokesHandler d = true ↔
      ((∃ s, d.targetCompany = some s ∧ 2 ≤ s.length) ∧
       (∃ s, d.userCompany = some s ∧ 2 ≤ s.length) ∧
       (∃ s, d.language = some s ∧ s ∈ languages))) ∧
    parseSections none = Except.ok [] ∧
    languages.length = 10 :=
  ⟨formIsValid_iff d, rfl, rfl⟩

/-- Witness for C5 at a fully valid draft. -/
theorem C5_submit_iff_witness :
    (submitInvokesHandler validDraft = true ↔
      ((∃ s, validDraft.targetCompany = some s ∧ 2 ≤ s.length) ∧
       (∃ s, validDraft.userCompany = some s ∧ 2 ≤ s.length) ∧
       (∃ s, validDraft.language = some s ∧ s ∈ languages))) ∧
    parseSections none = Except.ok [] ∧
    languages.length = 10 :=
  C5_submit_iff validDraft

/-! ## Claim C6 -/

/-- Claim C6 counterexample: a failed task whose `error` field is present
but empty displays the fallback message, not the (empty) error string —
the JavaScript `||` treats the empty string as absent. -/
theorem C6_counterexample :
    taskFailedEmptyError.status = Status.failed ∧
    taskFailedEmptyError.error = some "" ∧
    displayedError (some taskFailedEmptyError) = fallbackErrorMessage ∧
    fallbackErrorMessage ≠ "" := by
  refine ⟨rfl, rfl, rfl, by decide⟩

/-- Claim C6 (amended): for a failed snapshot the failure panel shows the
task error string exactly when it is present and non-empty, and the
default fallback message when it is absent (or empty). -/
theorem C6_failed_message (t : Task) (h : t.status = Status.failed) :
    renderMain (observingState t)
      = ProgressView.errorView (displayedError (some t)) ∧
    (∀ e, t.error = some e → e ≠ "" → displayedError (some t) = e) ∧
    (t.error = none → displayedError (some t) = fallbackErrorMessage) := by
  refine ⟨?_, ?_, ?_⟩
  · simp [renderMain, observingState, statusIsFailed, h]
  · intro e he hne
    simp [displayedError, he, hne]
  · intro he
    simp [displayedError, he]

/-- Witness for C6 at a failed task with message `boom`. -/
theorem C6_failed_message_witness :
    renderMain (observingState taskFailedBoom)
      = ProgressView.errorView (displayedError (some taskFailedBoom)) ∧
    (∀ e, taskFailedBoom.error = some e → e ≠ "" →
      displayedError (some taskFailedBoom) = e) ∧
    (taskFailedBoom.error = none →
      displayedError (some taskFailedBoom) = fallbackErrorMessage) :=
  C6_failed_message taskFailedBoom rfl

/-! ## Claim C7 -/

/-- Claim C7 counterexample: on step 0 with a valid target company but a
still-absent requester company, the step-relevant fields are valid yet
the `Next` button is disabled — the guard reads whole-form validity, not
the current step fields. -/
theorem C7_counterexample :
    specStepFieldsValid 0 draftStep0 ∧
    nextDisabled (formIsValid draftStep0) = true := by
  constructor
  · unfold specStepFieldsValid
    rw [if_pos rfl]
    exact ⟨"Acme", rfl, by decide⟩
  · decide

/-- Claim C7 (amended): forward navigation is enabled exactly when the
whole form is valid (all fields of all steps), and backward navigation is
permitted exactly when the step index is nonzero, independent of
validity. -/
theorem C7_navigation_guards (d : WizardDraft) (stepIdx : Int) :
    (nextDisabled (formIsValid d) = false ↔
      ((∃ s, d.targetCompany = some s ∧ 2 ≤ s.length) ∧
       (∃ s, d.userCompany = some s ∧ 2 ≤ s.length) ∧
       (∃ s, d.language = some s ∧ s ∈ languages))) ∧
    (backDisabled stepIdx = false ↔ stepIdx ≠ 0) := by
  constructor
  · rw [← formIsValid_iff d]
    simp [nextDisabled]
  · simp [backDisabled]

/-- Witness for C7 at the valid draft and step 1. -/
theorem C7_navigation_guards_witness :
    (nextDisabled (formIsValid validDraft) = false ↔
      ((∃ s, validDraft.targetCompany = some s ∧ 2 ≤ s.length) ∧
       (∃ s, validDraft.userCompany = some s ∧ 2 ≤ s.length) ∧
       (∃ s, validDraft.language = some s ∧ s ∈ languages))) ∧
    (backDisabled 1 = false ↔ (1 : Int) ≠ 0) :=
  C7_navigation_guards validDraft 1

/-! ## Claim C8 -/

/-- Claim C8: along any event sequence in which no requester profile is
captured (no truthy stored value and no dialog submit), `hasUserInfo`
stays false, so the polling query stays disabled — no `getTaskStatus`
request is ever issued, with no timeout, however long the sequence. -/
theorem C8_awaiting_profile (es : List ProfileEvent)
    (h : ∀ e ∈ es, capturesProfile e = false) :
    (runProfile es).hasUserInfo = false ∧
    (∀ idPresent, pollingEnabled idPresent (runProfile es).hasUserInfo = false) := by
  have key : (runProfile es).hasUserInfo = false :=
    foldl_profile_preserves es initialProfileState rfl h
  refine ⟨key, fun idPresent => ?_⟩
  rw [key]
  exact Bool.and_false idPresent

/-- Witness for C8: a mount that finds no stored profile. -/
theorem C8_awaiting_profile_witness :
    (runProfile [ProfileEvent.mountStorageCheck none]).hasUserInfo = false ∧
    (∀ idPresent, pollingEnabled idPresent
      (runProfile [ProfileEvent.mountStorageCheck none]).hasUserInfo = false) :=
  C8_awaiting_profile [ProfileEvent.mountStorageCheck none] (by decide)

/-! ## Claim C9 -/

/-- Claim C9: a draft submitted with `sections = []` reaches the
task-creation request with the empty list preserved: the validated
payload posted to `/generate` carries `sections = []`, the payload
transport is the identity, and the default-values fallback keeps a
present empty list. -/
theorem C9_sections_preserved (d : WizardDraft) (b : FormValues)
    (h : d.sections = some []) (hb : submittedPayload d = some b) :
    b.sections = [] ∧ createTaskPayload b = b ∧
    resolveDefaultSections (some []) = [] := by
  refine ⟨?_, rfl, rfl⟩
  unfold submittedPayload at hb
  cases hp : parseWizard d with
  | error e =>
    rw [hp] at hb
    exact Option.noConfusion hb
  | ok v =>
    rw [hp] at hb
    simp only [createTaskPayload, Option.some.injEq] at hb
    subst hb
    have hsec := parseWizard_sections d v hp
    rw [h] at hsec
    simp only [parseSections, Except.ok.injEq] at hsec
    exact hsec.symm

/-- Witness for C9: the valid draft with empty sections. -/
theorem C9_sections_preserved_witness :
    sampleRequest.sections = [] ∧
    createTaskPayload sampleRequest = sampleRequest ∧
    resolveDefaultSections (some []) = [] :=
  C9_sections_preserved validDraft sampleRequest rfl rfl

/-! ## Claim C10 -/

/-- Claim C10: starting from 0, every sequence of `Next`/`Back` clicks
keeps the step cursor within the bounds of the three-step list:
`handleNext` never exceeds index 2 and `handleBack` never goes below 0. -/
theorem C10_cursor_bounds (es : List NavEvent) :
    0 ≤ runNav es ∧ runNav es ≤ 2 :=
  runNav_bounds_aux es 0 (by decide) (by decide)

/-- Witness for C10 on a concrete click sequence. -/
theorem C10_cursor_bounds_witness :
    0 ≤ runNav [NavEvent.next, NavEvent.back, NavEvent.back] ∧
    runNav [NavEvent.next, NavEvent.back, NavEvent.back] ≤ 2 :=
  C10_cursor_bounds [NavEvent.next, NavEvent.back, NavEvent.back]

end AccountResearch
